import Mathlib

/-!
Shallow embedding of the loan-lifecycle core of the `maestria-biblioteca-mvc`
repository (src/models/models.py, src/controllers/prestamo_controller.py,
src/controllers/libro_controller.py).

Modelling conventions:
* SQLAlchemy rows become Lean structures; the accented Spanish column names of
  the source (`Título`, `FechaPréstamo`, `FechaDevolución`, `IdCategoría`)
  are transliterated to ASCII (`titulo`, `fechaPrestamo`, `fechaDevolucion`,
  `idCategoria`) because Lean identifiers cannot carry the accents.
* The database is a value of type `DB`: lists of rows plus the autoincrement
  counter for `tblPrestamos.IdPrestamo`.
* Timestamps (`datetime`) are naturals counting seconds; `timedelta(days=14)`
  is `14 * 86400` seconds.
* A controller method is a pure function from the committed database state
  (plus its inputs and the current clock) to a `Resultado`: the `(éxito,
  mensaje)` pair the Python method returns together with the database state
  after the method (commit applied, or original state after a rollback).
* Persistence failures (the `except Exception` arms) are driven by an
  explicit oracle `Falla` saying which primitive session operation raises.
  `session.rollback()` discards every pending (uncommitted) write, so every
  failing run returns the original `DB` unchanged.
* `session.query(M).filter(cond).first()` on a primary-key condition becomes
  `List.find?`; the ORM mutation of the found row becomes a `List.map` that
  rewrites the rows matching the key (under the primary-key `Nodup`
  well-formedness below this touches exactly the found row).
-/

/-- Row of `tblAutores` (class `Autor`, models.py). -/
structure Autor where
  idAutor : Nat
  nombres : String
  apellidos : String
  nacionalidad : String
  deriving Repr, DecidableEq

/-- Row of `tblLibros` (class `Libro`, models.py). `titulo` is the source
column `Título`; `disponible` is the availability flag `Disponible`. -/
structure Libro where
  isbn : String
  titulo : String
  publicacion : String
  idCategoria : Nat
  idAutor : Nat
  disponible : Bool
  deriving Repr, DecidableEq

/-- Row of `tblUsuarios` (class `Usuario`, models.py). -/
structure Usuario where
  idUsuario : Nat
  nombres : String
  apellidos : String
  usuarioActivo : Bool
  deriving Repr, DecidableEq

/-- Row of `tblPrestamos` (class `Prestamo`, models.py). `fechaPrestamo`,
`fechaVencimiento`, `fechaDevolucion` are the source columns `FechaPréstamo`,
`FechaVencimiento`, `FechaDevolución`; `multaPagar` is `MultaPagar`
(`Numeric`, default 0, modelled as an integer amount). `fechaDevolucion =
none` is the SQL NULL of an open loan. -/
structure Prestamo where
  idPrestamo : Nat
  idUsuario : Nat
  isbn : String
  fechaPrestamo : Nat
  fechaVencimiento : Nat
  fechaDevolucion : Option Nat
  multaPagar : Int
  deriving Repr, DecidableEq

/-- Committed database state: the four tables the loan core touches plus the
autoincrement counter of `tblPrestamos.IdPrestamo`. -/
structure DB where
  autores : List Autor
  libros : List Libro
  usuarios : List Usuario
  prestamos : List Prestamo
  nextPrestamoId : Nat
  deriving Repr, DecidableEq

/-- Persistence-failure oracle: which primitive session operation raises an
exception during one controller call, and the text of that exception (the
`{e}` interpolated into the error message). `libro`, `usuario` and `prestamo`
are the `session.query(...)` calls for the respective tables; `commit` is
`session.commit()`. -/
structure Falla where
  libro : Bool
  usuario : Bool
  prestamo : Bool
  commit : Bool
  detalle : String
  deriving Repr, DecidableEq

/-- The oracle of a run where the persistence layer behaves normally. -/
def sinFalla : Falla := ⟨false, false, false, false, ""⟩

/-- Value returned by a mutating controller method: the Python `(éxito,
mensaje)` tuple plus the database state after the call. -/
structure Resultado where
  exito : Bool
  mensaje : String
  db : DB
  deriving Repr, DecidableEq

/-- `timedelta(days=14)` in seconds (prestamo_controller.py line 101). -/
def plazoPrestamo : Nat := 14 * 86400

/-- The `Prestamo(...)` constructor call of `crear_prestamo`
(prestamo_controller.py lines 97-103): `FechaPréstamo = now`,
`FechaVencimiento = now + 14 days`, `FechaDevolución = None`; the primary key
comes from the autoincrement counter and `MultaPagar` from the column
default 0 (models.py line 163). -/
def nuevoPrestamo (db : DB) (isbn : String) (usuario_id : Nat) (now : Nat) : Prestamo :=
  { idPrestamo := db.nextPrestamoId
    idUsuario := usuario_id
    isbn := isbn
    fechaPrestamo := now
    fechaVencimiento := now + plazoPrestamo
    fechaDevolucion := none
    multaPagar := 0 }

/-- ORM write `libro.Disponible = False` of `crear_prestamo`
(prestamo_controller.py line 107), as the row rewrite it performs on the
table: the row keyed by `isbn` becomes unavailable, the rest is untouched. -/
def marcarPrestado (isbn : String) (l : Libro) : Libro :=
  if l.isbn == isbn then { l with disponible := false } else l

/-- ORM write `libro.Disponible = True` of `devolver_libro`
(prestamo_controller.py line 161). -/
def marcarDisponible (isbn : String) (l : Libro) : Libro :=
  if l.isbn == isbn then { l with disponible := true } else l

/-- ORM write `prestamo.FechaDevolución = datetime.now()` of
`devolver_libro` (prestamo_controller.py line 155), keyed by the loan id. -/
def cerrarPrestamo (id_prestamo now : Nat) (q : Prestamo) : Prestamo :=
  if q.idPrestamo == id_prestamo then { q with fechaDevolucion := some now } else q

/-- Database state committed by a successful `crear_prestamo`: the new loan
row appended (with the next autoincrement id) and the book row keyed by
`isbn` marked unavailable. -/
def crearEstadoExitoso (db : DB) (isbn : String) (usuario_id now : Nat) : DB :=
  { db with
    libros := db.libros.map (marcarPrestado isbn)
    prestamos := db.prestamos ++ [nuevoPrestamo db isbn usuario_id now]
    nextPrestamoId := db.nextPrestamoId + 1 }

/-- Database state committed by a successful `devolver_libro` on the found
loan `prestamo`: the loan row keyed by `id_prestamo` closed with timestamp
`now`, and — when the referenced book still exists (`if libro:` in the
source) — that book marked available again. -/
def devolverEstadoExitoso (db : DB) (prestamo : Prestamo) (id_prestamo now : Nat) : DB :=
  { db with
    prestamos := db.prestamos.map (cerrarPrestamo id_prestamo now)
    libros :=
      match db.libros.find? (fun l => l.isbn == prestamo.isbn) with
      | some _ => db.libros.map (marcarDisponible prestamo.isbn)
      | none => db.libros }

/-- `PrestamoController.crear_prestamo` (prestamo_controller.py lines
57-123). Checks, in order: the book exists, the book is available, the user
exists; then inserts the new loan, sets `libro.Disponible = False` and
commits. Any exception (here: an oracle-driven query or commit failure) is
caught, the session rolled back — discarding the pending loan insert and
availability write — and reported as a failure message. -/
def crear_prestamo (db : DB) (isbn : String) (usuario_id : Nat) (now : Nat)
    (f : Falla) : Resultado :=
  if f.libro then
    ⟨false, "Error al procesar préstamo: " ++ f.detalle, db⟩
  else
    match db.libros.find? (fun l => l.isbn == isbn) with
    | none => ⟨false, "Libro no encontrado.", db⟩
    | some libro =>
      if !libro.disponible then
        ⟨false, "El libro '" ++ libro.titulo ++ "' ya está prestado.", db⟩
      else if f.usuario then
        ⟨false, "Error al procesar préstamo: " ++ f.detalle, db⟩
      else
        match db.usuarios.find? (fun u => u.idUsuario == usuario_id) with
        | none => ⟨false, "Usuario no encontrado.", db⟩
        | some _ =>
          if f.commit then
            ⟨false, "Error al procesar préstamo: " ++ f.detalle, db⟩
          else
            ⟨true, "Préstamo realizado exitosamente.",
              crearEstadoExitoso db isbn usuario_id now⟩

/-- `PrestamoController.devolver_libro` (prestamo_controller.py lines
125-172). Finds the loan; fails if absent or already returned (the Python
truthiness test `if prestamo.FechaDevolución:` is exactly non-NULL, a
`datetime` being always truthy); otherwise sets `FechaDevolución = now`,
sets the referenced book available again when that book still exists (the
`if libro:` guard), and commits. Exceptions roll back as in
`crear_prestamo`. -/
def devolver_libro (db : DB) (id_prestamo : Nat) (now : Nat) (f : Falla) : Resultado :=
  if f.prestamo then
    ⟨false, "Error en devolución: " ++ f.detalle, db⟩
  else
    match db.prestamos.find? (fun p => p.idPrestamo == id_prestamo) with
    | none => ⟨false, "Préstamo no encontrado.", db⟩
    | some prestamo =>
      if prestamo.fechaDevolucion.isSome then
        ⟨false, "Este préstamo ya fue devuelto.", db⟩
      else if f.libro then
        ⟨false, "Error en devolución: " ++ f.detalle, db⟩
      else if f.commit then
        ⟨false, "Error en devolución: " ++ f.detalle, db⟩
      else
        ⟨true, "Libro devuelto correctamente. ¡Gracias!",
          devolverEstadoExitoso db prestamo id_prestamo now⟩

/-- `PrestamoController.obtener_prestamos_activos` (prestamo_controller.py
lines 174-198): the loans with `FechaDevolución == None`; on a persistence
failure the `except` arm returns the empty list. -/
def obtener_prestamos_activos (db : DB) (falla : Bool) : List Prestamo :=
  if falla then []
  else db.prestamos.filter (fun p => p.fechaDevolucion == none)

/-- `LibroController.obtener_todos` (libro_controller.py lines 61-88): all
books; empty list on a persistence failure. -/
def obtener_todos (db : DB) (falla : Bool) : List Libro :=
  if falla then [] else db.libros

/-- `LibroController.obtener_disponibles` (libro_controller.py lines
155-179): the books with `Disponible == True`; empty list on a persistence
failure. -/
def obtener_disponibles (db : DB) (falla : Bool) : List Libro :=
  if falla then []
  else db.libros.filter (fun l => l.disponible)

/-- Building the search filter of `LibroController.buscar`
(libro_controller.py line 142) evaluates the attribute access
`Libro.Titulo` — but the mapped attribute of the model is `Título`
(models.py line 83), so Python raises
`AttributeError: type object 'Libro' has no attribute 'Titulo'` before the
query ever runs. The embedding records that the construction of the filter
expression always fails with this exception. -/
def construirFiltroBusqueda (_termino_busqueda : String) :
    Except String (Libro → Autor → Bool) :=
  Except.error "type object 'Libro' has no attribute 'Titulo'"

/-- `LibroController.buscar` (libro_controller.py lines 118-153): the `try`
body builds the filter expression and would run the query, but building the
filter raises (see `construirFiltroBusqueda`), so control always reaches the
`except` arm, which returns the empty list. The `falla` flag is the ordinary
persistence-failure oracle; it is irrelevant because the `AttributeError`
fires first. -/
def buscar (db : DB) (termino_busqueda : String) (falla : Bool) : List Libro :=
  match construirFiltroBusqueda termino_busqueda with
  | Except.error _ => []
  | Except.ok coincide =>
    if falla then []
    else db.libros.filter (fun l =>
      match db.autores.find? (fun a => a.idAutor == l.idAutor) with
      | some a => coincide l a
      | none => false)

/-- `t.comienzaCon s`: the character list `t` is a prefix of `s`. -/
def comienzaCon : List Char → List Char → Bool
  | [], _ => true
  | _ :: _, [] => false
  | t :: ts, c :: s => t == c && comienzaCon ts s

/-- `esSublista t s`: the character list `t` occurs contiguously in `s`. -/
def esSublista : List Char → List Char → Bool
  | t, [] => comienzaCon t []
  | t, c :: s => comienzaCon t (c :: s) || esSublista t s

/-- `contiene s t`: the string `t` is a substring of `s` (the semantics of
the SQL pattern `LIKE concat of percent, t, percent`). -/
def contiene (s t : String) : Bool := esSublista t.toList s.toList

/-- Modelled from the spec: the match predicate `buscar` is documented to
apply — the term occurs as a substring of the title, the ISBN, the author
first names or the author last names (spec section 4.2, `search(term)`).
Used only to exhibit what the source's broken filter was meant to test. -/
def coincideBusquedaSpec (db : DB) (l : Libro) (t : String) : Bool :=
  contiene l.titulo t || contiene l.isbn t ||
    (match db.autores.find? (fun a => a.idAutor == l.idAutor) with
     | some a => contiene a.nombres t || contiene a.apellidos t
     | none => false)

/-- Number of open loans (NULL `FechaDevolución`) referencing ISBN `s` in a
loan table. -/
def openCountL (ps : List Prestamo) (s : String) : Nat :=
  ps.countP (fun p => p.isbn == s && p.fechaDevolucion.isNone)

/-- Number of open loans referencing ISBN `s` in the database. -/
def openCount (db : DB) (s : String) : Nat :=
  openCountL db.prestamos s

/-- Primary-key well-formedness of a database state: ISBNs are unique,
loan ids are unique, and every stored loan id is below the autoincrement
counter (so the next assigned id is fresh). -/
def BienFormada (db : DB) : Prop :=
  (db.libros.map (fun l => l.isbn)).Nodup ∧
  (db.prestamos.map (fun p => p.idPrestamo)).Nodup ∧
  ∀ p ∈ db.prestamos, p.idPrestamo < db.nextPrestamoId

/-- The ledger invariant (spec section 3): a book is unavailable exactly
when an open loan references it, and at most one open loan references any
book. -/
def Invariante (db : DB) : Prop :=
  (∀ l ∈ db.libros, l.disponible = false ↔ openCount db l.isbn ≠ 0) ∧
  ∀ p ∈ db.prestamos, openCount db p.isbn ≤ 1

instance (db : DB) : Decidable (BienFormada db) := by
  unfold BienFormada; infer_instance

instance (db : DB) : Decidable (Invariante db) := by
  unfold Invariante; infer_instance

/-- A small concrete catalog used by concrete-evaluation theorems: the
Gabriel García Márquez book of the models.py docstring. -/
def autorGabo : Autor := ⟨1, "Gabriel", "García Márquez", "Colombiana"⟩

/-- Concrete book by `autorGabo`. -/
def libroCien : Libro := ⟨"978-0001", "Cien años de soledad", "Sudamericana", 1, 1, true⟩

/-- Concrete active borrower. -/
def usuarioSiete : Usuario := ⟨7, "Estudiante", "Maestría", true⟩

/-- Concrete database: one author, one available book, one borrower, no
loans. -/
def dbEjemplo : DB := ⟨[autorGabo], [libroCien], [usuarioSiete], [], 1⟩

/-- Concrete database after lending `libroCien` to borrower 7: one open loan
(id 1), book unavailable. -/
def dbPrestado : DB :=
  ⟨[autorGabo], [{ libroCien with disponible := false }], [usuarioSiete],
    [⟨1, 7, "978-0001", 1000, 1000 + plazoPrestamo, none, 0⟩], 2⟩

/-- Concrete inactive borrower. -/
def usuarioInactivo : Usuario := ⟨8, "Lector", "Retirado", false⟩

/-- Concrete database whose only borrower is inactive. -/
def dbInactivo : DB := ⟨[autorGabo], [libroCien], [usuarioInactivo], [], 1⟩

/-- Concrete oracle: `session.commit()` raises. -/
def fallaCommit : Falla := ⟨false, false, false, true, "connection lost"⟩

example : (crear_prestamo dbEjemplo "978-0001" 7 1000 sinFalla).exito = true := by decide

example : (crear_prestamo dbEjemplo "978-0001" 9 1000 sinFalla).mensaje = "Usuario no encontrado." := by decide

example : BienFormada dbEjemplo ∧ Invariante dbEjemplo := by decide

example : Invariante (crear_prestamo dbEjemplo "978-0001" 7 1000 sinFalla).db := by decide

example :
    (devolver_libro (crear_prestamo dbEjemplo "978-0001" 7 1000 sinFalla).db 1 2000 sinFalla).exito
      = true := by decide

example : buscar dbEjemplo "García" false = [] := by decide

example : coincideBusquedaSpec dbEjemplo libroCien "García" = true := by decide

/-! Helper lemmas: primary-key uniqueness, open-loan counting, and the
field-preservation facts of the three ORM row writes. -/

/-- Two book rows of a well-formed database sharing an ISBN are the same
row. -/
theorem libro_unico {db : DB} (hwf : BienFormada db) {a b : Libro}
    (ha : a ∈ db.libros) (hb : b ∈ db.libros) (h : a.isbn = b.isbn) : a = b :=
  List.inj_on_of_nodup_map hwf.1 ha hb h

/-- Two loan rows of a well-formed database sharing an id are the same
row. -/
theorem prestamo_unico {db : DB} (hwf : BienFormada db) {a b : Prestamo}
    (ha : a ∈ db.prestamos) (hb : b ∈ db.prestamos)
    (h : a.idPrestamo = b.idPrestamo) : a = b :=
  List.inj_on_of_nodup_map hwf.2.1 ha hb h

/-- `marcarPrestado` never changes the key of a row. -/
theorem marcarPrestado_isbn (isbn : String) (l : Libro) :
    (marcarPrestado isbn l).isbn = l.isbn := by
  unfold marcarPrestado; split <;> rfl

/-- `marcarDisponible` never changes the key of a row. -/
theorem marcarDisponible_isbn (isbn : String) (l : Libro) :
    (marcarDisponible isbn l).isbn = l.isbn := by
  unfold marcarDisponible; split <;> rfl

/-- `cerrarPrestamo` never changes the loan id. -/
theorem cerrarPrestamo_id (lid now : Nat) (q : Prestamo) :
    (cerrarPrestamo lid now q).idPrestamo = q.idPrestamo := by
  unfold cerrarPrestamo; split <;> rfl

/-- `cerrarPrestamo` never changes the referenced ISBN. -/
theorem cerrarPrestamo_isbn (lid now : Nat) (q : Prestamo) :
    (cerrarPrestamo lid now q).isbn = q.isbn := by
  unfold cerrarPrestamo; split <;> rfl

/-- Counting open loans distributes over table concatenation. -/
theorem openCountL_append (ps qs : List Prestamo) (s : String) :
    openCountL (ps ++ qs) s = openCountL ps s + openCountL qs s :=
  List.countP_append _ ps qs

/-- The freshly inserted loan is open and counts exactly for its own ISBN. -/
theorem openCountL_nuevo (db : DB) (isbn : String) (uid now : Nat) (s : String) :
    openCountL [nuevoPrestamo db isbn uid now] s = if isbn == s then 1 else 0 := by
  simp [openCountL, nuevoPrestamo, List.countP_cons]

/-- Counting predicates agree pointwise on a table, so the counts agree. -/
theorem countP_igual {α : Type} {p q : α → Bool} {l : List α}
    (h : ∀ a ∈ l, p a = q a) : l.countP p = l.countP q := by
  induction l with
  | nil => rfl
  | cons x l ih =>
    rw [List.countP_cons, List.countP_cons, h x (List.mem_cons_self x l),
      ih fun a ha => h a (List.mem_cons_of_mem x ha)]

/-- Two distinct rows both satisfying a predicate push its count to at
least two. -/
theorem countP_dos {α : Type} (p : α → Bool) {a b : α} {l : List α}
    (ha : a ∈ l) (hb : b ∈ l) (hne : a ≠ b)
    (hpa : p a = true) (hpb : p b = true) : 2 ≤ l.countP p := by
  induction l with
  | nil => cases ha
  | cons x l ih =>
    rw [List.countP_cons]
    rcases List.mem_cons.mp ha with rfl | ha'
    · have hb' : b ∈ l := by
        rcases List.mem_cons.mp hb with rfl | h
        · exact absurd rfl hne
        · exact h
      have h1 : 0 < l.countP p := List.countP_pos_iff.mpr ⟨b, hb', hpb⟩
      simp only [hpa, if_true]
      omega
    · rcases List.mem_cons.mp hb with rfl | hb'
      · have h1 : 0 < l.countP p := List.countP_pos_iff.mpr ⟨a, ha', hpa⟩
        simp only [hpb, if_true]
        omega
      · have := ih ha' hb'
        omega

/-- Effect of the close-loan row write on the open-loan count: the closed id
stops counting, everything else is unchanged. -/
theorem openCountL_cerrar (ps : List Prestamo) (lid now : Nat) (s : String) :
    openCountL (ps.map (cerrarPrestamo lid now)) s =
      ps.countP (fun q =>
        q.isbn == s && q.fechaDevolucion.isNone && !(q.idPrestamo == lid)) := by
  rw [openCountL, List.countP_map]
  apply countP_igual
  intro q _
  by_cases h : q.idPrestamo = lid
  · simp [cerrarPrestamo, h]
  · simp [cerrarPrestamo, h]

/-- Finding a loan by id commutes with the close-loan row write. -/
theorem find_cerrar (ps : List Prestamo) (lid now : Nat) :
    (ps.map (cerrarPrestamo lid now)).find? (fun q => q.idPrestamo == lid) =
      (ps.find? (fun q => q.idPrestamo == lid)).map (cerrarPrestamo lid now) := by
  induction ps with
  | nil => rfl
  | cons q ps ih =>
    by_cases h : q.idPrestamo = lid
    · simp [List.find?_cons, cerrarPrestamo_id, h]
    · simp [List.find?_cons, cerrarPrestamo_id, h, ih]

/-- Existence of a matching available book row, phrased through the
`first()` query `crear_prestamo` actually runs. -/
theorem existe_libro_disponible_iff {db : DB} (hwf : BienFormada db) (isbn : String) :
    (∃ l ∈ db.libros, l.isbn = isbn ∧ l.disponible = true) ↔
      ∃ libro, db.libros.find? (fun l => l.isbn == isbn) = some libro ∧
        libro.disponible = true := by
  constructor
  · rintro ⟨l, hl, hisbn, hdisp⟩
    cases hfind : db.libros.find? (fun l => l.isbn == isbn) with
    | none =>
      exfalso
      have := List.find?_eq_none.mp hfind l hl
      simp [hisbn] at this
    | some libro =>
      refine ⟨libro, rfl, ?_⟩
      have hm := List.mem_of_find?_eq_some hfind
      have hi : libro.isbn = isbn := by simpa using List.find?_some hfind
      have hlu : l = libro := libro_unico hwf hl hm (by rw [hisbn, hi])
      rwa [← hlu]
  · rintro ⟨libro, hfind, hdisp⟩
    exact ⟨libro, List.mem_of_find?_eq_some hfind,
      by simpa using List.find?_some hfind, hdisp⟩

/-- Existence of a borrower row, phrased through the `first()` query
`crear_prestamo` actually runs. -/
theorem existe_usuario_iff (db : DB) (uid : Nat) :
    (∃ u ∈ db.usuarios, u.idUsuario = uid) ↔
      (db.usuarios.find? (fun u => u.idUsuario == uid)).isSome := by
  rw [List.find?_isSome]
  constructor
  · rintro ⟨u, hu, h⟩
    exact ⟨u, hu, by simp [h]⟩
  · rintro ⟨u, hu, h⟩
    exact ⟨u, hu, by simpa using h⟩

/-- Existence of a matching open loan row, phrased through the `first()`
query `devolver_libro` actually runs. -/
theorem existe_prestamo_abierto_iff {db : DB} (hwf : BienFormada db) (lid : Nat) :
    (∃ p ∈ db.prestamos, p.idPrestamo = lid ∧ p.fechaDevolucion = none) ↔
      ∃ p, db.prestamos.find? (fun q => q.idPrestamo == lid) = some p ∧
        p.fechaDevolucion = none := by
  constructor
  · rintro ⟨p, hp, hid, hopen⟩
    cases hfind : db.prestamos.find? (fun q => q.idPrestamo == lid) with
    | none =>
      exfalso
      have := List.find?_eq_none.mp hfind p hp
      simp [hid] at this
    | some p' =>
      refine ⟨p', rfl, ?_⟩
      have hm := List.mem_of_find?_eq_some hfind
      have hi : p'.idPrestamo = lid := by simpa using List.find?_some hfind
      have hpu : p = p' := prestamo_unico hwf hp hm (by rw [hid, hi])
      rwa [← hpu]
  · rintro ⟨p, hfind, hopen⟩
    exact ⟨p, List.mem_of_find?_eq_some hfind,
      by simpa using List.find?_some hfind, hopen⟩

/-- Complete case split of `crear_prestamo`: either every check passed, no
primitive raised, and the call returns success with the fully committed
state, or the call reports failure and leaves the database untouched. -/
theorem crear_casos (db : DB) (isbn : String) (uid now : Nat) (f : Falla) :
    (crear_prestamo db isbn uid now f =
        ⟨true, "Préstamo realizado exitosamente.", crearEstadoExitoso db isbn uid now⟩ ∧
      (∃ libro, db.libros.find? (fun l => l.isbn == isbn) = some libro ∧
        libro.disponible = true) ∧
      (db.usuarios.find? (fun u => u.idUsuario == uid)).isSome) ∨
    ((crear_prestamo db isbn uid now f).exito = false ∧
      (crear_prestamo db isbn uid now f).db = db) := by
  by_cases hfl : f.libro = true
  · right; simp [crear_prestamo, hfl]
  · cases hfind : db.libros.find? (fun l => l.isbn == isbn) with
    | none => right; simp [crear_prestamo, hfl, hfind]
    | some libro =>
      by_cases hdisp : libro.disponible = true
      · by_cases hfu : f.usuario = true
        · right; simp [crear_prestamo, hfl, hfind, hdisp, hfu]
        · cases hufind : db.usuarios.find? (fun u => u.idUsuario == uid) with
          | none => right; simp [crear_prestamo, hfl, hfind, hdisp, hfu, hufind]
          | some u =>
            by_cases hfc : f.commit = true
            · right; simp [crear_prestamo, hfl, hfind, hdisp, hfu, hufind, hfc]
            · left
              refine ⟨?_, ⟨libro, rfl, hdisp⟩, by simp⟩
              simp [crear_prestamo, hfl, hfind, hdisp, hfu, hufind, hfc]
      · right
        have hdisp' : libro.disponible = false := by
          cases h : libro.disponible
          · rfl
          · exact absurd h hdisp
        simp [crear_prestamo, hfl, hfind, hdisp']

/-- When every check passes and no primitive raises, `crear_prestamo`
returns success with the fully committed state. -/
theorem crear_exito_de_condiciones (db : DB) (isbn : String) (uid now : Nat)
    {libro : Libro}
    (hfind : db.libros.find? (fun l => l.isbn == isbn) = some libro)
    (hdisp : libro.disponible = true)
    (hu : (db.usuarios.find? (fun u => u.idUsuario == uid)).isSome) :
    crear_prestamo db isbn uid now sinFalla =
      ⟨true, "Préstamo realizado exitosamente.", crearEstadoExitoso db isbn uid now⟩ := by
  obtain ⟨u, hufind⟩ := Option.isSome_iff_exists.mp hu
  simp [crear_prestamo, sinFalla, hfind, hdisp, hufind]

/-- Complete case split of `devolver_libro`: either an open loan was found,
no primitive raised, and the call returns success with the fully committed
state, or the call reports failure and leaves the database untouched. -/
theorem devolver_casos (db : DB) (lid now : Nat) (f : Falla) :
    (∃ p, db.prestamos.find? (fun q => q.idPrestamo == lid) = some p ∧
      p.fechaDevolucion = none ∧
      devolver_libro db lid now f =
        ⟨true, "Libro devuelto correctamente. ¡Gracias!",
          devolverEstadoExitoso db p lid now⟩) ∨
    ((devolver_libro db lid now f).exito = false ∧
      (devolver_libro db lid now f).db = db) := by
  by_cases hfp : f.prestamo = true
  · right; simp [devolver_libro, hfp]
  · cases hfind : db.prestamos.find? (fun q => q.idPrestamo == lid) with
    | none => right; simp [devolver_libro, hfp, hfind]
    | some p =>
      cases hopen : p.fechaDevolucion with
      | some d => right; simp [devolver_libro, hfp, hfind, hopen]
      | none =>
        by_cases hfl : f.libro = true
        · right; simp [devolver_libro, hfp, hfind, hopen, hfl]
        · by_cases hfc : f.commit = true
          · right; simp [devolver_libro, hfp, hfind, hopen, hfl, hfc]
          · left
            exact ⟨p, rfl, hopen,
              by simp [devolver_libro, hfp, hfind, hopen, hfl, hfc]⟩

/-- When an open loan is found and no primitive raises, `devolver_libro`
returns success with the fully committed state. -/
theorem devolver_exito_de_condiciones (db : DB) (lid now : Nat) {p : Prestamo}
    (hfind : db.prestamos.find? (fun q => q.idPrestamo == lid) = some p)
    (hopen : p.fechaDevolucion = none) :
    devolver_libro db lid now sinFalla =
      ⟨true, "Libro devuelto correctamente. ¡Gracias!",
        devolverEstadoExitoso db p lid now⟩ := by
  simp [devolver_libro, sinFalla, hfind, hopen]

/-- Open-loan count in the state committed by `crear_prestamo`: the target
ISBN gains the new open loan, other ISBNs are unchanged. -/
theorem openCount_crearEstado (db : DB) (isbn : String) (uid now : Nat) (s : String) :
    openCount (crearEstadoExitoso db isbn uid now) s =
      openCount db s + if isbn == s then 1 else 0 := by
  simp [openCount, crearEstadoExitoso, openCountL_append, openCountL_nuevo]

/-- A book row holding an available book has no open loan on its ISBN. -/
theorem openCount_cero_de_disponible {db : DB} (hinv : Invariante db)
    {libro : Libro} (hmem : libro ∈ db.libros) (hdisp : libro.disponible = true) :
    openCount db libro.isbn = 0 := by
  by_contra h
  have := (hinv.1 libro hmem).mpr h
  rw [this] at hdisp
  cases hdisp

/-- Closing the loan `p` does not change the open-loan count of any other
ISBN. -/
theorem openCount_cerrar_ne {db : DB} (hwf : BienFormada db) {p : Prestamo}
    {lid : Nat} (hmem : p ∈ db.prestamos) (hid : p.idPrestamo = lid)
    (now : Nat) {s : String} (hs : s ≠ p.isbn) :
    openCountL (db.prestamos.map (cerrarPrestamo lid now)) s = openCount db s := by
  rw [openCountL_cerrar, openCount, openCountL]
  apply countP_igual
  intro q hq
  by_cases h : q.idPrestamo = lid
  · have hqp : q = p := prestamo_unico hwf hq hmem (by rw [h, hid])
    have hne : q.isbn ≠ s := by
      rw [hqp]
      exact fun hh => hs hh.symm
    simp [hne]
  · simp [h]

/-- Closing the unique open loan on `p.isbn` leaves that ISBN with no open
loan at all. -/
theorem openCount_cerrar_cero {db : DB}
    (hinv : Invariante db) {p : Prestamo} {lid now : Nat}
    (hmem : p ∈ db.prestamos) (hid : p.idPrestamo = lid)
    (hopen : p.fechaDevolucion = none) :
    openCountL (db.prestamos.map (cerrarPrestamo lid now)) p.isbn = 0 := by
  rw [openCountL_cerrar, List.countP_eq_zero]
  intro q hq hcon
  rw [Bool.and_eq_true, Bool.and_eq_true] at hcon
  obtain ⟨⟨hisbn, hopenq⟩, hne⟩ := hcon
  have hisbn' : q.isbn = p.isbn := by simpa using hisbn
  have hopenq' : q.fechaDevolucion = none := by simpa using hopenq
  have hne' : q.idPrestamo ≠ lid := by simpa using hne
  have hqp : q ≠ p := fun h => hne' (by rw [h]; exact hid)
  have h2 : 2 ≤ openCount db p.isbn := by
    apply countP_dos _ hq hmem hqp
    · simp [hisbn', hopenq']
    · simp [hopen]
  have := hinv.2 p hmem
  omega

/-- Open-loan count in the state committed by `devolver_libro` depends only
on the rewritten loan table. -/
theorem openCount_devolverEstado (db : DB) (p : Prestamo) (lid now : Nat) (s : String) :
    openCount (devolverEstadoExitoso db p lid now) s =
      openCountL (db.prestamos.map (cerrarPrestamo lid now)) s := rfl

/-- The ledger invariant holds in the state committed by a successful
`crear_prestamo`. -/
theorem invariante_crearEstado {db : DB}
    (hinv : Invariante db) {isbn : String} {uid now : Nat} {libro : Libro}
    (hfind : db.libros.find? (fun l => l.isbn == isbn) = some libro)
    (hdisp : libro.disponible = true) :
    Invariante (crearEstadoExitoso db isbn uid now) := by
  have hmem := List.mem_of_find?_eq_some hfind
  have hisbn : libro.isbn = isbn := by simpa using List.find?_some hfind
  have hcount0 : openCount db isbn = 0 := by
    have := openCount_cero_de_disponible hinv hmem hdisp
    rwa [hisbn] at this
  constructor
  · intro l' hl'
    have hl'' : l' ∈ db.libros.map (marcarPrestado isbn) := by
      simpa only [crearEstadoExitoso] using hl'
    obtain ⟨l, hl, rfl⟩ := List.mem_map.mp hl''
    rw [openCount_crearEstado, marcarPrestado_isbn]
    by_cases h : l.isbn = isbn
    · have hb : (isbn == l.isbn) = true := by simp [h]
      have hm : marcarPrestado isbn l = { l with disponible := false } := by
        simp [marcarPrestado, h]
      rw [hm, hb, h, hcount0]
      simp
    · have hb : (isbn == l.isbn) = false := by
        simp
        exact fun hh => h hh.symm
      have hm : marcarPrestado isbn l = l := by
        simp [marcarPrestado, h]
      rw [hm, hb]
      simpa using hinv.1 l hl
  · intro p' hp'
    have hp'' : p' ∈ db.prestamos ++ [nuevoPrestamo db isbn uid now] := by
      simpa only [crearEstadoExitoso] using hp'
    rw [openCount_crearEstado]
    rcases List.mem_append.mp hp'' with hmm | hmm
    · by_cases h : isbn = p'.isbn
      · have hc : openCount db p'.isbn = 0 := by rw [← h]; exact hcount0
        simp [hc, h]
      · have hb : (isbn == p'.isbn) = false := by simp [h]
        rw [hb]
        have := hinv.2 p' hmm
        simpa using this
    · have hpn : p' = nuevoPrestamo db isbn uid now := by simpa using hmm
      rw [hpn]
      have hni : (nuevoPrestamo db isbn uid now).isbn = isbn := rfl
      rw [hni, hcount0]
      simp

/-- The ledger invariant holds in the state committed by a successful
`devolver_libro`. -/
theorem invariante_devolverEstado {db : DB} (hwf : BienFormada db)
    (hinv : Invariante db) {lid now : Nat} {p : Prestamo}
    (hfind : db.prestamos.find? (fun q => q.idPrestamo == lid) = some p)
    (hopen : p.fechaDevolucion = none) :
    Invariante (devolverEstadoExitoso db p lid now) := by
  have hmem := List.mem_of_find?_eq_some hfind
  have hid : p.idPrestamo = lid := by simpa using List.find?_some hfind
  constructor
  · intro l' hl'
    rw [openCount_devolverEstado]
    cases hflibro : db.libros.find? (fun l => l.isbn == p.isbn) with
    | some lb =>
      have hl'' : l' ∈ db.libros.map (marcarDisponible p.isbn) := by
        simpa only [devolverEstadoExitoso, hflibro] using hl'
      obtain ⟨l, hl, rfl⟩ := List.mem_map.mp hl''
      rw [marcarDisponible_isbn]
      by_cases h : l.isbn = p.isbn
      · have hm : marcarDisponible p.isbn l = { l with disponible := true } := by
          simp [marcarDisponible, h]
        rw [hm, h, openCount_cerrar_cero hinv hmem hid hopen]
        simp
      · have hm : marcarDisponible p.isbn l = l := by
          simp [marcarDisponible, h]
        rw [hm, openCount_cerrar_ne hwf hmem hid now h]
        exact hinv.1 l hl
    | none =>
      have hl'' : l' ∈ db.libros := by
        simpa only [devolverEstadoExitoso, hflibro] using hl'
      have hne : l'.isbn ≠ p.isbn := by
        have := List.find?_eq_none.mp hflibro l' hl''
        simpa using this
      rw [openCount_cerrar_ne hwf hmem hid now hne]
      exact hinv.1 l' hl''
  · intro p' hp'
    have hp'' : p' ∈ db.prestamos.map (cerrarPrestamo lid now) := hp'
    obtain ⟨q, hq, rfl⟩ := List.mem_map.mp hp''
    rw [openCount_devolverEstado, cerrarPrestamo_isbn]
    by_cases h : q.isbn = p.isbn
    · rw [h, openCount_cerrar_cero hinv hmem hid hopen]
      omega
    · rw [openCount_cerrar_ne hwf hmem hid now h]
      exact hinv.2 q hq

/-- C1: in the sequential model every Loan Service operation preserves the
ledger invariant — a book is unavailable iff an open loan references it and
at most one open loan references any book — whether `crear_prestamo` or
`devolver_libro` succeeds or fails, under any persistence-failure oracle. -/
theorem c1_invariante_preservada (db : DB) (isbn : String) (uid lid now : Nat)
    (f : Falla) (hwf : BienFormada db) (hinv : Invariante db) :
    Invariante (crear_prestamo db isbn uid now f).db ∧
    Invariante (devolver_libro db lid now f).db := by
  constructor
  · rcases crear_casos db isbn uid now f with ⟨heq, ⟨libro, hfind, hdisp⟩, _⟩ | ⟨_, hdb⟩
    · have hdb : (crear_prestamo db isbn uid now f).db =
          crearEstadoExitoso db isbn uid now := by rw [heq]
      rw [hdb]
      exact invariante_crearEstado hinv hfind hdisp
    · rw [hdb]; exact hinv
  · rcases devolver_casos db lid now f with ⟨p, hfind, hopen, heq⟩ | ⟨_, hdb⟩
    · have hdb : (devolver_libro db lid now f).db =
          devolverEstadoExitoso db p lid now := by rw [heq]
      rw [hdb]
      exact invariante_devolverEstado hwf hinv hfind hopen
    · rw [hdb]; exact hinv

theorem c1_invariante_preservada_witness :
    BienFormada dbEjemplo ∧ Invariante dbEjemplo ∧
      (Invariante (crear_prestamo dbEjemplo "978-0001" 7 1000 sinFalla).db ∧
       Invariante (devolver_libro dbEjemplo 1 2000 sinFalla).db) :=
  ⟨by decide, by decide,
    c1_invariante_preservada dbEjemplo "978-0001" 7 1 1000 sinFalla
      (by decide) (by decide)⟩

/-- C4: the claim says `buscar` returns exactly the books matching the term
as a substring of title, ISBN or author names; the code instead references
the nonexistent attribute `Libro.Titulo`, raises `AttributeError` inside its
`try`, and returns the empty list for every term — here evaluated on a
catalog where the spec's own scenario (term "García", author
"García Márquez") demands a nonempty result. -/
theorem c4_buscar_siempre_vacia :
    buscar dbEjemplo "García" false = [] ∧
    libroCien ∈ dbEjemplo.libros ∧
    libroCien.idAutor = autorGabo.idAutor ∧
    contiene autorGabo.apellidos "García" = true ∧
    coincideBusquedaSpec dbEjemplo libroCien "García" = true := by decide

/-- C5: both mutating operations always return a `(éxito, mensaje)` result
(they are total functions of the embedding), and they are atomic: any
failing run — business failure or oracle-driven persistence failure —
leaves the database exactly as it was, while a successful run commits the
complete write set, so no partial write is ever observable. -/
theorem c5_total_y_atomico (db : DB) (isbn : String) (uid lid now : Nat)
    (f : Falla) :
    ((crear_prestamo db isbn uid now f).exito = false →
      (crear_prestamo db isbn uid now f).db = db) ∧
    ((crear_prestamo db isbn uid now f).exito = true →
      (crear_prestamo db isbn uid now f).db = crearEstadoExitoso db isbn uid now) ∧
    ((devolver_libro db lid now f).exito = false →
      (devolver_libro db lid now f).db = db) ∧
    ((devolver_libro db lid now f).exito = true →
      ∃ p, db.prestamos.find? (fun q => q.idPrestamo == lid) = some p ∧
        (devolver_libro db lid now f).db = devolverEstadoExitoso db p lid now) := by
  refine ⟨?_, ?_, ?_, ?_⟩
  · intro h
    rcases crear_casos db isbn uid now f with ⟨heq, _⟩ | ⟨_, hdb⟩
    · rw [heq] at h; cases h
    · exact hdb
  · intro h
    rcases crear_casos db isbn uid now f with ⟨heq, _⟩ | ⟨hex, _⟩
    · rw [heq]
    · rw [h] at hex; cases hex
  · intro h
    rcases devolver_casos db lid now f with ⟨p, _, _, heq⟩ | ⟨_, hdb⟩
    · rw [heq] at h; cases h
    · exact hdb
  · intro h
    rcases devolver_casos db lid now f with ⟨p, hfind, _, heq⟩ | ⟨hex, _⟩
    · exact ⟨p, hfind, by rw [heq]⟩
    · rw [h] at hex; cases hex

theorem c5_total_y_atomico_witness :
    (crear_prestamo dbEjemplo "978-0001" 7 1000 fallaCommit).exito = false ∧
    (crear_prestamo dbEjemplo "978-0001" 7 1000 fallaCommit).db = dbEjemplo :=
  ⟨by decide,
    (c5_total_y_atomico dbEjemplo "978-0001" 7 1 1000 fallaCommit).1 (by decide)⟩

/-- C7: `crear_prestamo` checks its preconditions in a fixed order and
reports the first failure — a missing book yields "Libro no encontrado."
whatever the borrower id and whatever the borrower query would do, and an
unavailable book yields the "ya está prestado" message without the borrower
ever being consulted (the borrower query oracle `f.usuario` is
unconstrained). -/
theorem c7_orden_validaciones (db : DB) (isbn : String) (uid now : Nat)
    (f : Falla) (hf : f.libro = false) :
    (db.libros.find? (fun l => l.isbn == isbn) = none →
      crear_prestamo db isbn uid now f = ⟨false, "Libro no encontrado.", db⟩) ∧
    (∀ libro, db.libros.find? (fun l => l.isbn == isbn) = some libro →
      libro.disponible = false →
      crear_prestamo db isbn uid now f =
        ⟨false, "El libro '" ++ libro.titulo ++ "' ya está prestado.", db⟩) := by
  constructor
  · intro hfind
    simp [crear_prestamo, hf, hfind]
  · intro libro hfind hdisp
    simp [crear_prestamo, hf, hfind, hdisp]

theorem c7_orden_validaciones_witness :
    crear_prestamo dbEjemplo "no-existe" 99 1000 sinFalla =
      ⟨false, "Libro no encontrado.", dbEjemplo⟩ :=
  (c7_orden_validaciones dbEjemplo "no-existe" 99 1000 sinFalla (by decide)).1
    (by decide)

/-- C8: a successful `crear_prestamo` at time `now` inserts exactly one loan
whose loan timestamp is `now`, due timestamp is `now` plus 14 days, return
timestamp is NULL and fee is 0. -/
theorem c8_datos_nuevo_prestamo (db : DB) (isbn : String) (uid now : Nat)
    (f : Falla) :
    (crear_prestamo db isbn uid now f).exito = true →
    (crear_prestamo db isbn uid now f).db.prestamos =
      db.prestamos ++
        [{ idPrestamo := db.nextPrestamoId, idUsuario := uid, isbn := isbn,
           fechaPrestamo := now, fechaVencimiento := now + 14 * 86400,
           fechaDevolucion := none, multaPagar := 0 }] := by
  intro h
  rcases crear_casos db isbn uid now f with ⟨heq, _⟩ | ⟨hex, _⟩
  · rw [heq]; rfl
  · rw [h] at hex; cases hex

theorem c8_datos_nuevo_prestamo_witness :
    (crear_prestamo dbEjemplo "978-0001" 7 1000 sinFalla).db.prestamos =
      dbEjemplo.prestamos ++
        [{ idPrestamo := dbEjemplo.nextPrestamoId, idUsuario := 7, isbn := "978-0001",
           fechaPrestamo := 1000, fechaVencimiento := 1000 + 14 * 86400,
           fechaDevolucion := none, multaPagar := 0 }] :=
  c8_datos_nuevo_prestamo dbEjemplo "978-0001" 7 1000 sinFalla (by decide)

/-- C9: every Query Facade read operation degrades to the empty list when
the persistence layer raises. -/
theorem c9_lecturas_degradan_a_vacio (db : DB) (t : String) :
    obtener_todos db true = [] ∧ obtener_disponibles db true = [] ∧
    buscar db t true = [] ∧ obtener_prestamos_activos db true = [] :=
  ⟨rfl, rfl, rfl, rfl⟩

/-- C10: `crear_prestamo` never inspects the borrower's active flag — with
an existing available book and an existing but inactive borrower the loan
is still created. -/
theorem c10_ignora_usuario_inactivo (db : DB) (isbn : String) (uid now : Nat)
    (libro : Libro) (u : Usuario)
    (hfind : db.libros.find? (fun l => l.isbn == isbn) = some libro)
    (hdisp : libro.disponible = true)
    (hufind : db.usuarios.find? (fun x => x.idUsuario == uid) = some u)
    (_hinactivo : u.usuarioActivo = false) :
    (crear_prestamo db isbn uid now sinFalla).exito = true := by
  rw [crear_exito_de_condiciones db isbn uid now hfind hdisp (by simp [hufind])]

theorem c10_ignora_usuario_inactivo_witness :
    usuarioInactivo.usuarioActivo = false ∧
    (crear_prestamo dbInactivo "978-0001" 8 1000 sinFalla).exito = true :=
  ⟨by decide,
    c10_ignora_usuario_inactivo dbInactivo "978-0001" 8 1000 libroCien
      usuarioInactivo (by decide) (by decide) (by decide) (by decide)⟩

/-- C2: with a well-behaved persistence layer, `crear_prestamo` succeeds iff
the book exists, its availability flag is true and the borrower exists; and
after a success the book's flag is false and exactly one open loan
references the book. -/
theorem c2_crear_prestamo_correcto (db : DB) (isbn : String) (uid now : Nat)
    (hwf : BienFormada db) (hinv : Invariante db) :
    ((crear_prestamo db isbn uid now sinFalla).exito = true ↔
      ((∃ l ∈ db.libros, l.isbn = isbn ∧ l.disponible = true) ∧
       ∃ u ∈ db.usuarios, u.idUsuario = uid)) ∧
    ((crear_prestamo db isbn uid now sinFalla).exito = true →
      (∀ l ∈ (crear_prestamo db isbn uid now sinFalla).db.libros,
          l.isbn = isbn → l.disponible = false) ∧
      openCount (crear_prestamo db isbn uid now sinFalla).db isbn = 1) := by
  constructor
  · rw [existe_libro_disponible_iff hwf, existe_usuario_iff]
    constructor
    · intro h
      rcases crear_casos db isbn uid now sinFalla with ⟨_, hlib, husr⟩ | ⟨hex, _⟩
      · exact ⟨hlib, husr⟩
      · rw [h] at hex; cases hex
    · rintro ⟨⟨libro, hfind, hdisp⟩, hu⟩
      rw [crear_exito_de_condiciones db isbn uid now hfind hdisp hu]
  · intro h
    rcases crear_casos db isbn uid now sinFalla with
      ⟨heq, ⟨libro, hfind, hdisp⟩, _⟩ | ⟨hex, _⟩
    · have hdb : (crear_prestamo db isbn uid now sinFalla).db =
          crearEstadoExitoso db isbn uid now := by rw [heq]
      rw [hdb]
      constructor
      · intro l' hl' hisbn'
        have hl'' : l' ∈ db.libros.map (marcarPrestado isbn) := by
          simpa only [crearEstadoExitoso] using hl'
        obtain ⟨l, hl, rfl⟩ := List.mem_map.mp hl''
        rw [marcarPrestado_isbn] at hisbn'
        simp [marcarPrestado, hisbn']
      · have hmem := List.mem_of_find?_eq_some hfind
        have hisbn : libro.isbn = isbn := by simpa using List.find?_some hfind
        have hcount0 : openCount db isbn = 0 := by
          have := openCount_cero_de_disponible hinv hmem hdisp
          rwa [hisbn] at this
        rw [openCount_crearEstado, hcount0]
        simp
    · rw [h] at hex; cases hex

theorem c2_crear_prestamo_correcto_witness :
    BienFormada dbEjemplo ∧ Invariante dbEjemplo ∧
      openCount (crear_prestamo dbEjemplo "978-0001" 7 1000 sinFalla).db "978-0001" = 1 :=
  ⟨by decide, by decide,
    ((c2_crear_prestamo_correcto dbEjemplo "978-0001" 7 1000
      (by decide) (by decide)).2 (by decide)).2⟩

/-- C3: with a well-behaved persistence layer, `devolver_libro` succeeds iff
a loan with the given id exists and is open; after a success every loan row
with that id carries the return timestamp `now`, the referenced book — if
it still exists — is available again, and when the book no longer exists
the call still succeeds and leaves the book table untouched. -/
theorem c3_devolver_libro_correcto (db : DB) (lid now : Nat)
    (hwf : BienFormada db) :
    ((devolver_libro db lid now sinFalla).exito = true ↔
      ∃ p ∈ db.prestamos, p.idPrestamo = lid ∧ p.fechaDevolucion = none) ∧
    ((devolver_libro db lid now sinFalla).exito = true →
      ∀ q ∈ (devolver_libro db lid now sinFalla).db.prestamos,
        q.idPrestamo = lid → q.fechaDevolucion = some now) ∧
    (∀ p, db.prestamos.find? (fun q => q.idPrestamo == lid) = some p →
      p.fechaDevolucion = none →
      (∀ l ∈ (devolver_libro db lid now sinFalla).db.libros,
          l.isbn = p.isbn → l.disponible = true) ∧
      ((∀ l ∈ db.libros, l.isbn ≠ p.isbn) →
        (devolver_libro db lid now sinFalla).exito = true ∧
        (devolver_libro db lid now sinFalla).db.libros = db.libros)) := by
  refine ⟨?_, ?_, ?_⟩
  · rw [existe_prestamo_abierto_iff hwf]
    constructor
    · intro h
      rcases devolver_casos db lid now sinFalla with ⟨p, hfind, hopen, _⟩ | ⟨hex, _⟩
      · exact ⟨p, hfind, hopen⟩
      · rw [h] at hex; cases hex
    · rintro ⟨p, hfind, hopen⟩
      rw [devolver_exito_de_condiciones db lid now hfind hopen]
  · intro h q hq hid
    rcases devolver_casos db lid now sinFalla with ⟨p, hfind, hopen, heq⟩ | ⟨hex, _⟩
    · have hdb : (devolver_libro db lid now sinFalla).db =
          devolverEstadoExitoso db p lid now := by rw [heq]
      rw [hdb] at hq
      have hq' : q ∈ db.prestamos.map (cerrarPrestamo lid now) := hq
      obtain ⟨q0, hq0, rfl⟩ := List.mem_map.mp hq'
      rw [cerrarPrestamo_id] at hid
      simp [cerrarPrestamo, hid]
    · rw [h] at hex; cases hex
  · intro p hfind hopen
    have heq := devolver_exito_de_condiciones db lid now hfind hopen
    have hdb : (devolver_libro db lid now sinFalla).db =
        devolverEstadoExitoso db p lid now := by rw [heq]
    constructor
    · intro l' hl' hisbn'
      rw [hdb] at hl'
      cases hflibro : db.libros.find? (fun l => l.isbn == p.isbn) with
      | some lb =>
        have hl'' : l' ∈ db.libros.map (marcarDisponible p.isbn) := by
          simpa only [devolverEstadoExitoso, hflibro] using hl'
        obtain ⟨l, hl, rfl⟩ := List.mem_map.mp hl''
        rw [marcarDisponible_isbn] at hisbn'
        simp [marcarDisponible, hisbn']
      | none =>
        have hl'' : l' ∈ db.libros := by
          simpa only [devolverEstadoExitoso, hflibro] using hl'
        have hnp := List.find?_eq_none.mp hflibro l' hl''
        exfalso
        simp [hisbn'] at hnp
    · intro hnone
      have hflibro : db.libros.find? (fun l => l.isbn == p.isbn) = none := by
        rw [List.find?_eq_none]
        intro l hl
        simp [hnone l hl]
      constructor
      · rw [heq]
      · rw [hdb]
        simp [devolverEstadoExitoso, hflibro]

theorem c3_devolver_libro_correcto_witness :
    BienFormada dbPrestado ∧
      ((devolver_libro dbPrestado 1 2000 sinFalla).exito = true ↔
        ∃ p ∈ dbPrestado.prestamos, p.idPrestamo = 1 ∧ p.fechaDevolucion = none) :=
  ⟨by decide, (c3_devolver_libro_correcto dbPrestado 1 2000 (by decide)).1⟩

/-- C6: after a successful `devolver_libro`, returning the same loan again
fails with the "ya fue devuelto" message and leaves the whole database —
book availability included — exactly as the first return left it. -/
theorem c6_doble_devolucion (db : DB) (lid now now2 : Nat)
    (h1 : (devolver_libro db lid now sinFalla).exito = true) :
    (devolver_libro (devolver_libro db lid now sinFalla).db lid now2 sinFalla).exito = false ∧
    (devolver_libro (devolver_libro db lid now sinFalla).db lid now2 sinFalla).mensaje =
      "Este préstamo ya fue devuelto." ∧
    (devolver_libro (devolver_libro db lid now sinFalla).db lid now2 sinFalla).db =
      (devolver_libro db lid now sinFalla).db := by
  rcases devolver_casos db lid now sinFalla with ⟨p, hfind, hopen, heq⟩ | ⟨hex, _⟩
  · have hdb : (devolver_libro db lid now sinFalla).db =
        devolverEstadoExitoso db p lid now := by rw [heq]
    rw [hdb]
    have hid : p.idPrestamo = lid := by simpa using List.find?_some hfind
    have hfind2 : (devolverEstadoExitoso db p lid now).prestamos.find?
        (fun q => q.idPrestamo == lid) = some (cerrarPrestamo lid now p) := by
      show (db.prestamos.map (cerrarPrestamo lid now)).find?
          (fun q => q.idPrestamo == lid) = _
      rw [find_cerrar, hfind]
      rfl
    have hclosed : (cerrarPrestamo lid now p).fechaDevolucion = some now := by
      simp [cerrarPrestamo, hid]
    refine ⟨?_, ?_, ?_⟩ <;>
      simp [devolver_libro, sinFalla, hfind2, hclosed]
  · rw [h1] at hex; cases hex

theorem c6_doble_devolucion_witness :
    (devolver_libro dbPrestado 1 1500 sinFalla).exito = true ∧
    ((devolver_libro (devolver_libro dbPrestado 1 1500 sinFalla).db 1 2500 sinFalla).exito = false ∧
     (devolver_libro (devolver_libro dbPrestado 1 1500 sinFalla).db 1 2500 sinFalla).mensaje =
       "Este préstamo ya fue devuelto." ∧
     (devolver_libro (devolver_libro dbPrestado 1 1500 sinFalla).db 1 2500 sinFalla).db =
       (devolver_libro dbPrestado 1 1500 sinFalla).db) :=
  ⟨by decide, c6_doble_devolucion dbPrestado 1 1500 2500 (by decide)⟩
